import Mathlib

/-!
Shallow embedding of `src/plixel/CsvAnalyser.py` (class `CsvAnalyser`).

The program wraps a pandas `DataFrame`.  We embed a DataFrame as an ordered
list of named, dtype-tagged columns of cells.  Numeric cells are modelled by
rationals, missing cells (`NaN`) by an explicit `null` marker.

Python objects live on a heap and variables hold references; the class stores
two references, `self._df` and `self.df`.  Statements such as
`self.df.columns = ...` or `dropna(inplace=True)` mutate the referenced heap
object, while `pd.read_csv` allocates a fresh object.  The analyser state is
therefore embedded as a small heap of DataFrame values together with the two
reference indices.
-/

/-- Cell value of a table: a numeric value, a text value, or the missing-value
marker (pandas `NaN`). -/
inductive Val where
  | num (q : ℚ)
  | str (s : String)
  | null
deriving DecidableEq

/-- Dtype tag of a pandas column, as far as the program observes it:
`select_dtypes(include="number")` keeps exactly the numeric-dtype columns. -/
inductive Dtype where
  | numeric
  | object
deriving DecidableEq

/-- One named column of a DataFrame. -/
structure Col where
  name : String
  dtype : Dtype
  cells : List Val
deriving DecidableEq

/-- A pandas DataFrame: an ordered sequence of named columns. -/
structure DF where
  cols : List Col
deriving DecidableEq

/-- Exception kinds raised by the program (`ValueError`, `FileNotFoundError`,
`IndexError` from `get_row`, and `TypeError` coming out of pandas). -/
inductive Err where
  | valueError (msg : String)
  | fileNotFoundError (msg : String)
  | indexError (msg : String)
  | typeError (msg : String)
deriving DecidableEq

/-- File system visible to `pd.read_csv` and `os.path.exists`: a map from
paths to the table the CSV at that path parses to.  A path exists iff it is
listed. -/
def FS : Type := List (String × DF)

/-- Column names of the DataFrame, in order (`df.columns`). -/
def DF.names (df : DF) : List String :=
  df.cols.map (·.name)

/-- First column with the given name, mirroring pandas name lookup
(`df[column]`). -/
def DF.findCol (df : DF) (n : String) : Option Col :=
  df.cols.find? (fun c => c.name = n)

/-- Number of rows (`len(df)`): the length of the first column (pandas keeps
all columns the same length; `DF.uniform` states that invariant). -/
def DF.rowCount (df : DF) : Nat :=
  match df.cols with
  | [] => 0
  | c :: _ => c.cells.length

/-- All columns hold exactly `n` cells. -/
def DF.uniform (df : DF) (n : Nat) : Prop :=
  ∀ c ∈ df.cols, c.cells.length = n

instance (df : DF) (n : Nat) : Decidable (df.uniform n) := by
  unfold DF.uniform; infer_instance

/-- Well-formed DataFrame: every column has `rowCount` cells. -/
def DF.wf (df : DF) : Prop :=
  df.uniform df.rowCount

instance (df : DF) : Decidable df.wf := by
  unfold DF.wf; infer_instance

/-- Row `i` of the table as the name-to-value mapping that `df.iloc[i]`
exposes (the association list pairs each column name with its cell). -/
def rowAt (df : DF) (i : Nat) : List (String × Val) :=
  df.cols.map (fun c => (c.name, c.cells.getD i Val.null))

/-- First `n` rows of the table, observed row-wise. -/
def rowsOf : Nat → DF → List (List (String × Val))
  | 0, _ => []
  | n + 1, df => rowAt df 0 :: rowsOf n (DF.mk (df.cols.map (fun c => { c with cells := c.cells.tail })))

/-- The table observed as its list of rows. -/
def DF.rows (df : DF) : List (List (String × Val)) :=
  rowsOf df.rowCount df

/-- Drop the first row of every column. -/
def dfTail (df : DF) : DF :=
  DF.mk (df.cols.map (fun c => { c with cells := c.cells.tail }))

/-- Cell of column `n` at row `i`, when column `n` exists. -/
def cellAt (df : DF) (n : String) (i : Nat) : Option Val :=
  (df.findCol n).map (fun c => c.cells.getD i Val.null)

theorem rowsOf_succ (n : Nat) (df : DF) :
    rowsOf (n + 1) df = rowAt df 0 :: rowsOf n (dfTail df) := rfl

/-- Python `str.lower()`, restricted to the basic-latin letters: the map of
`Char.toLower` over the characters of the string (the ASCII fragment of the
Python function, stated on the character list so that it computes by
structural recursion). -/
def pyLower (s : String) : String :=
  String.mk (s.data.map Char.toLower)

/-- Python `str.replace(" ", "_")`: the pattern is a single character, so the
substring replacement is the character map sending a space to an underscore. -/
def pyReplaceSpace (s : String) : String :=
  String.mk (s.data.map (fun c => if c = ' ' then '_' else c))

/-- Header normalisation applied per column name by `standardise_headers`:
`col.lower().replace(" ", "_")`. -/
def standardKey (s : String) : String :=
  pyReplaceSpace (pyLower s)

/-- Source, line 258: `self.df.columns = [col.lower().replace(" ", "_") for
col in self.df.columns]` viewed as a value transformation of the mutated
DataFrame. -/
def standardise_headers (df : DF) : DF :=
  DF.mk (df.cols.map (fun c => { c with name := standardKey c.name }))

/-- Python/pandas `==` on cells: numbers compare by value, strings by value,
and a missing value (`NaN`) compares unequal to everything. -/
def valEq : Val → Val → Bool
  | Val.num a, Val.num b => a = b
  | Val.str a, Val.str b => a = b
  | _, _ => false

/-- Keep the entries of `xs` whose position carries `true` in the boolean
mask, mirroring pandas boolean-mask row selection. -/
def applyMask (mask : List Bool) (xs : List α) : List α :=
  (List.zip mask xs).filterMap (fun p => if p.1 then some p.2 else none)

/-- Apply a row mask to every column of the table. -/
def maskDF (mask : List Bool) (df : DF) : DF :=
  DF.mk (df.cols.map (fun c => { c with cells := applyMask mask c.cells }))

/-- Source, lines 142-168 (`filter_rows`): raise `ValueError` when the column
is absent, otherwise select the rows where the cell of `column` equals
`value` (`self.df[self.df[column] == value]`). -/
def filter_rows (column : String) (value : Val) (df : DF) : Except Err DF :=
  if column ∈ df.names then
    match df.findCol column with
    | some c => Except.ok (maskDF (c.cells.map (fun v => valEq v value)) df)
    | none => Except.ok df
  else
    Except.error (Err.valueError ("Column \x27" ++ column ++ "\x27 not found in the DataFrame"))

/-- Numeric contents of a cell, used by the aggregations (pandas skips
missing values). -/
def numOf : Val → Option ℚ
  | Val.num q => some q
  | _ => none

/-- Numeric cells of the column named `n`. -/
def numCellsOf (df : DF) (n : String) : List ℚ :=
  match df.findCol n with
  | some c => c.cells.filterMap numOf
  | none => []

/-- Names of the numeric-dtype columns
(`self.df.select_dtypes(include="number").columns`). -/
def numericCols (df : DF) : List String :=
  (df.cols.filter (fun c => c.dtype = Dtype.numeric)).map (·.name)

/-- Keys of the `metrics` dict of `get_trends`, in source order. -/
def metricNames : List String :=
  ["mean", "median", "max", "min", "std", "var"]

/-- Pandas `Series.mean` on the non-missing cells.  An empty column would
give `NaN` in pandas; here division by zero gives `0`, and no claim evaluates
an aggregate of an empty column. -/
def qmean (qs : List ℚ) : ℚ :=
  qs.sum / qs.length

/-- Pandas `Series.median`: middle element of the sorted values, or the mean
of the two middle elements. -/
def qmedian (qs : List ℚ) : ℚ :=
  let s := qs.mergeSort (fun a b => a ≤ b)
  if s.length % 2 = 1 then s.getD (s.length / 2) 0
  else (s.getD (s.length / 2 - 1) 0 + s.getD (s.length / 2) 0) / 2

/-- Pandas `Series.max` on the non-missing cells. -/
def qmax (qs : List ℚ) : ℚ :=
  match qs with
  | [] => 0
  | h :: t => t.foldl max h

/-- Pandas `Series.min` on the non-missing cells. -/
def qmin (qs : List ℚ) : ℚ :=
  match qs with
  | [] => 0
  | h :: t => t.foldl min h

/-- Pandas `Series.var` (sample variance, `ddof=1`). -/
def qvar (qs : List ℚ) : ℚ :=
  (qs.map (fun q => (q - qmean qs) ^ 2)).sum / (qs.length - 1 : ℤ)

/-- Value of one entry of the `metrics` dict of `get_trends` on a column
(lines 128-135).  `std` is the square root of the sample variance, hence the
values live in the reals. -/
noncomputable def metricFn (metric : String) (qs : List ℚ) : ℝ :=
  if metric = "mean" then (qmean qs : ℝ)
  else if metric = "median" then (qmedian qs : ℝ)
  else if metric = "max" then (qmax qs : ℝ)
  else if metric = "min" then (qmin qs : ℝ)
  else if metric = "std" then Real.sqrt (qvar qs)
  else if metric = "var" then (qvar qs : ℝ)
  else 0

/-- Source, lines 103-140 (`get_trends`): raise `ValueError` for a metric
outside the `metrics` dict, otherwise return the dict mapping each numeric
column to the chosen aggregate of that column. -/
noncomputable def get_trends (metric : String) (df : DF) : Except Err (List (String × ℝ)) :=
  if metricNames.contains metric then
    Except.ok ((numericCols df).map (fun c => (c, metricFn metric (numCellsOf df c))))
  else
    Except.error (Err.valueError ("Unsupported metric: " ++ metric))

/-- Cells contributed by table `d` to the merged column named `n`: the cells
of its own column of that name, or a run of missing values when `d` has no
such column (pandas aligns by name and fills with `NaN`). -/
def cellsFor (d : DF) (n : String) : List Val :=
  match d.findCol n with
  | some c => c.cells
  | none => List.replicate d.rowCount Val.null

/-- Dtype of the column named `n`, if present. -/
def DF.dtypeOf (d : DF) (n : String) : Option Dtype :=
  (d.findCol n).map (·.dtype)

/-- Dtype of a merged column: a column present on one side keeps its dtype
(missing cells are `NaN`); mixing numeric with object gives object. -/
def mergeDtype : Option Dtype → Option Dtype → Dtype
  | some a, some b => if a = b then a else Dtype.object
  | some a, none => a
  | none, some b => b
  | none, none => Dtype.object

/-- Value of `pd.concat([d1, d2], axis=0, ignore_index=True)`: the column
names of `d1` followed by the new names of `d2`; each merged column stacks
the cells of `d1` over those of `d2`, filling a side that lacks the column
with missing values; `ignore_index=True` renumbers the rows from zero, which
the positional cell lists already express. -/
def concatDF (d1 d2 : DF) : DF :=
  DF.mk ((d1.names ++ d2.names.filter (fun n => !(d1.names.contains n))).map
    (fun n => Col.mk n (mergeDtype (d1.dtypeOf n) (d2.dtypeOf n)) (cellsFor d1 n ++ cellsFor d2 n)))

/-- Source, lines 216-226 (`merge_dataframes`): `return pd.concat([self.df,
df2], axis=0, ignore_index=True)`; the method only reads `self.df`. -/
def merge_dataframes (df df2 : DF) : DF :=
  concatDF df df2

/-- Python `file_path.endswith((".csv", ".data"))`, stated on the character
lists so that it computes by structural recursion. -/
def endswithTabular (p : String) : Bool :=
  List.isSuffixOf ".csv".data p.data || List.isSuffixOf ".data".data p.data

/-- Source, lines 194-214 (`merge_csv`): `FileNotFoundError` when the path
does not exist, `ValueError` when its extension is not recognised, otherwise
the concatenation with the parsed file; the method only reads `self.df`. -/
def merge_csv (df : DF) (file_path : String) (fs : FS) : Except Err DF :=
  match List.lookup file_path fs with
  | none => Except.error (Err.fileNotFoundError ("File \x27" ++ file_path ++ "\x27 not found"))
  | some df2 =>
      if endswithTabular file_path then Except.ok (concatDF df df2)
      else Except.error (Err.valueError ("Only .csv files are supported"))

/-- Source, lines 302-305 (`get_row`): an explicit `IndexError` when `index
>= len(self.df)`, otherwise `self.df.iloc[index]`.  `iloc` accepts a negative
index down to `-len(df)` as an offset from the end and raises its own
`IndexError` below that. -/
def get_row (index : ℤ) (df : DF) : Except Err (List (String × Val)) :=
  if (df.rowCount : ℤ) ≤ index then
    Except.error (Err.indexError ("Index " ++ toString index ++ " out of bounds"))
  else if 0 ≤ index then
    Except.ok (rowAt df index.toNat)
  else if -(df.rowCount : ℤ) ≤ index then
    Except.ok (rowAt df ((df.rowCount : ℤ) + index).toNat)
  else
    Except.error (Err.indexError ("single positional indexer is out-of-bounds"))

/-- Argument of `drop_column`, annotated `str | list[str]` in the source. -/
inductive ColArg where
  | one (s : String)
  | many (l : List String)
deriving DecidableEq

/-- Source, lines 323-327 (`drop_column`): the guard `column not in
self.df.columns` goes through `pandas.Index.__contains__`, which hashes its
key before the lookup; a `list` argument is unhashable, so the guard itself
raises `TypeError` and a list of names never reaches `self.df.drop`.  A
present single name is dropped from a copy (`df.drop` does not mutate). -/
def drop_column (column : ColArg) (df : DF) : Except Err DF :=
  match column with
  | ColArg.many _ => Except.error (Err.typeError ("unhashable type: \x27list\x27"))
  | ColArg.one s =>
      if s ∈ df.names then Except.ok (DF.mk (df.cols.filter (fun c => !(c.name = s : Bool))))
      else Except.error (Err.valueError ("Column \x27" ++ s ++ "\x27 not found in the DataFrame"))

/-- Mask of the rows of `df` that contain no missing cell. -/
def notNullMask (df : DF) : List Bool :=
  (List.range df.rowCount).map
    (fun i => df.cols.all (fun c => !(c.cells.getD i Val.null = Val.null : Bool)))

/-- Value of `df.dropna()`: the rows without missing cells, renumbered. -/
def dropnaDF (df : DF) : DF :=
  maskDF (notNullMask df) df

/-- State of a `CsvAnalyser` instance: the DataFrame objects it can reach,
with `dfRef` the reference held by `self.df` and `origRef` the reference held
by `self._df`.  Two equal indices model the two attributes pointing at the
same Python object. -/
structure CsvAnalyser where
  heap : List DF
  dfRef : Nat
  origRef : Nat
deriving DecidableEq

/-- Table currently referenced by `self.df` (the working table). -/
def CsvAnalyser.working (a : CsvAnalyser) : DF :=
  a.heap.getD a.dfRef (DF.mk [])

/-- Table currently referenced by `self._df` (the snapshot the spec calls
`original`). -/
def CsvAnalyser.original (a : CsvAnalyser) : DF :=
  a.heap.getD a.origRef (DF.mk [])

/-- Source, lines 63-86 (`__init__`): with `df` given, `self._df = df` and
`self.df = df` store two references to the one caller-supplied object; with
only a recognised `file_path`, `pd.read_csv` runs twice and each attribute
gets its own freshly parsed object; a missing file raises
`FileNotFoundError`; any other combination falls to the final `else` and
raises `ValueError`. -/
def CsvAnalyser.init (df : Option DF) (file_path : Option String) (fs : FS) :
    Except Err CsvAnalyser :=
  match df with
  | some d => Except.ok (CsvAnalyser.mk [d] 0 0)
  | none =>
    match file_path with
    | some p =>
        if endswithTabular p then
          match List.lookup p fs with
          | some d => Except.ok (CsvAnalyser.mk [d, d] 1 0)
          | none => Except.error (Err.fileNotFoundError ("File \x27" ++ p ++ "\x27 not found"))
        else Except.error (Err.valueError ("Must provide atleast one argument"))
    | none => Except.error (Err.valueError ("Must provide atleast one argument"))

/-- Source, lines 245-258 (`standardise_headers` as a method):
`self.df.columns = ...` mutates the heap object `self.df` references. -/
def CsvAnalyser.standardiseHeadersOp (a : CsvAnalyser) : CsvAnalyser :=
  CsvAnalyser.mk (a.heap.set a.dfRef (standardise_headers a.working)) a.dfRef a.origRef

/-- Source, lines 319-321 (`drop_missing_values`): `self.df.dropna(
inplace=True)` mutates the referenced object, and the method returns it. -/
def CsvAnalyser.dropMissingValuesOp (a : CsvAnalyser) : CsvAnalyser × DF :=
  (CsvAnalyser.mk (a.heap.set a.dfRef (dropnaDF a.working)) a.dfRef a.origRef,
   dropnaDF a.working)

/-- Source, lines 228-234 (`change_to_init_state`): `self.df = self._df`
copies the reference, after which both attributes alias one object. -/
def CsvAnalyser.changeToInitState (a : CsvAnalyser) : CsvAnalyser :=
  CsvAnalyser.mk a.heap a.origRef a.origRef

/-- Example table of the spec and docstrings: columns `A = [1, 2, 3]` and
`B = [4, 5, 6]`, both of numeric dtype. -/
def exAB : DF :=
  DF.mk [Col.mk "A" Dtype.numeric [Val.num 1, Val.num 2, Val.num 3],
         Col.mk "B" Dtype.numeric [Val.num 4, Val.num 5, Val.num 6]]

/-- One-column table whose header contains a space. -/
def exSpace : DF :=
  DF.mk [Col.mk "A B" Dtype.numeric [Val.num 1]]

/-- One-row table used for the negative-index counterexample. -/
def ex1 : DF :=
  DF.mk [Col.mk "A" Dtype.numeric [Val.num 7]]

/-- Second table for the merge example: columns `B` and `C`. -/
def exBC : DF :=
  DF.mk [Col.mk "B" Dtype.numeric [Val.num 8], Col.mk "C" Dtype.numeric [Val.num 9]]

/-- C10: when both an in-memory table and a file path are supplied,
construction succeeds, the in-memory table becomes both `self._df` and
`self.df` (one shared object), and the file path is ignored: the result does
not depend on the path or on the file system, and coincides with passing no
path at all. -/
theorem init_both_sources_uses_df_ignores_path (d : DF) (p : String) (fs : FS) :
    CsvAnalyser.init (some d) (some p) fs = Except.ok (CsvAnalyser.mk [d] 0 0)
    ∧ CsvAnalyser.init (some d) (some p) fs = CsvAnalyser.init (some d) none []
    ∧ (CsvAnalyser.mk [d] 0 0).working = d
    ∧ (CsvAnalyser.mk [d] 0 0).original = d :=
  ⟨rfl, rfl, rfl, rfl⟩

/-- C3 counterexample: constructing with no table and the path `"data.txt"`
(whose name does not end in `".csv"` or `".data"`) raises exactly the same
error as constructing with no arguments at all, so the unsupported-format
failure is not a distinct error kind. -/
theorem init_bad_extension_same_error_as_no_args :
    CsvAnalyser.init none (some "data.txt") []
        = Except.error (Err.valueError ("Must provide atleast one argument"))
    ∧ CsvAnalyser.init none none []
        = Except.error (Err.valueError ("Must provide atleast one argument")) :=
  ⟨rfl, rfl⟩

/-- C3 amended: with no in-memory table, both failure modes collapse to one
error: providing no path raises `ValueError "Must provide atleast one
argument"`, and providing a path whose name does not end in `".csv"` or
`".data"` raises that same `ValueError`, whatever the file system holds. -/
theorem init_failure_kinds (p : String) (fs : FS) (h : endswithTabular p = false) :
    CsvAnalyser.init none (some p) fs
        = Except.error (Err.valueError ("Must provide atleast one argument"))
    ∧ CsvAnalyser.init none none fs
        = Except.error (Err.valueError ("Must provide atleast one argument")) := by
  simp [CsvAnalyser.init, h]

/-- Witness for the amended C3 statement at the path `"data.txt"`. -/
theorem init_failure_kinds_witness :
    endswithTabular "data.txt" = false
    ∧ (CsvAnalyser.init none (some "data.txt") []
        = Except.error (Err.valueError ("Must provide atleast one argument"))
      ∧ CsvAnalyser.init none none []
        = Except.error (Err.valueError ("Must provide atleast one argument"))) :=
  ⟨by decide, init_failure_kinds "data.txt" [] (by decide)⟩

/-- C1: exhibits the aliasing defect.  Construct from the in-memory table
with column `"A B"`; `self._df` and `self.df` then reference one object, so
the in-place `standardise_headers` also rewrites the snapshot: afterwards
`original` equals the standardised table, which differs from the table
supplied at construction. -/
theorem original_mutated_by_standardise_headers :
    CsvAnalyser.init (some exSpace) none [] = Except.ok (CsvAnalyser.mk [exSpace] 0 0)
    ∧ (CsvAnalyser.mk [exSpace] 0 0).standardiseHeadersOp.original = standardise_headers exSpace
    ∧ standardise_headers exSpace ≠ exSpace := by
  refine ⟨rfl, rfl, ?_⟩
  decide

/-- C2: exhibits the failed reset.  After constructing from the in-memory
table with column `"A B"` and calling `standardise_headers`, a
`change_to_init_state` leaves `working` equal to the standardised table, not
to the table supplied at construction, because the snapshot was mutated
through the alias. -/
theorem change_to_init_state_does_not_restore :
    CsvAnalyser.init (some exSpace) none [] = Except.ok (CsvAnalyser.mk [exSpace] 0 0)
    ∧ (CsvAnalyser.mk [exSpace] 0 0).standardiseHeadersOp.changeToInitState.working
        = standardise_headers exSpace
    ∧ standardise_headers exSpace ≠ exSpace := by
  refine ⟨rfl, rfl, ?_⟩
  decide

/-- C5: exhibits the list-argument defect of `drop_column`.  On the table
with columns `A`, `B`, the list `["A"]` of present names does not yield a
table without `A`: the membership guard hashes the argument and a list is
unhashable, so the call raises `TypeError`.  A single present name works and
leaves a copy without that column. -/
theorem drop_column_list_raises :
    "A" ∈ exAB.names
    ∧ drop_column (ColArg.many ["A"]) exAB
        = Except.error (Err.typeError ("unhashable type: \x27list\x27"))
    ∧ drop_column (ColArg.one "A") exAB
        = Except.ok (DF.mk [Col.mk "B" Dtype.numeric [Val.num 4, Val.num 5, Val.num 6]]) :=
  ⟨by decide, rfl, rfl⟩

/-- C4 counterexample: on a one-row table, `get_row(-1)` is not rejected: the
guard only tests `index >= len(self.df)`, and `iloc[-1]` returns the last
row. -/
theorem get_row_negative_index_accepted :
    get_row (-1) ex1 = Except.ok [("A", Val.num 7)] := rfl

/-- C4 amended: `get_row(index)` raises an out-of-bounds `IndexError` exactly
when `index >= row_count` or `index < -row_count`; every other index returns
the row at position `index mod row_count` (so a non-negative index addresses
from the front and a negative one from the back, Python style) as a
name-to-value mapping, without touching the table. -/
theorem get_row_error_iff_outside_python_range (df : DF) (i : ℤ) :
    (((df.rowCount : ℤ) ≤ i ∨ i < -(df.rowCount : ℤ))
      ∧ ∃ m, get_row i df = Except.error (Err.indexError m))
    ∨ (-(df.rowCount : ℤ) ≤ i ∧ i < (df.rowCount : ℤ)
      ∧ get_row i df = Except.ok (rowAt df ((i % (df.rowCount : ℤ)).toNat))) := by
  by_cases h1 : (df.rowCount : ℤ) ≤ i
  · exact Or.inl ⟨Or.inl h1, ⟨"Index " ++ toString i ++ " out of bounds", by simp [get_row, h1]⟩⟩
  · by_cases h2 : 0 ≤ i
    · refine Or.inr ⟨by omega, by omega, ?_⟩
      have hmod : i % (df.rowCount : ℤ) = i := Int.emod_eq_of_lt h2 (by omega)
      rw [hmod]
      simp [get_row, h1, h2]
    · by_cases h3 : -(df.rowCount : ℤ) ≤ i
      · refine Or.inr ⟨h3, by omega, ?_⟩
        have hmod : i % (df.rowCount : ℤ) = (df.rowCount : ℤ) + i := by
          have h4 : (i + (df.rowCount : ℤ)) % (df.rowCount : ℤ)
              = i % (df.rowCount : ℤ) := by
            simp
          have h5 : (i + (df.rowCount : ℤ)) % (df.rowCount : ℤ)
              = i + (df.rowCount : ℤ) := Int.emod_eq_of_lt (by omega) (by omega)
          omega
        rw [hmod]
        simp [get_row, h1, h2, h3]
      · exact Or.inl ⟨Or.inr (by omega),
          ⟨"single positional indexer is out-of-bounds", by simp [get_row, h1, h2, h3]⟩⟩

theorem char_toNat_ofNat_valid {n : Nat} (h : n.isValidChar) :
    (Char.ofNat n).toNat = n := by
  rw [Char.ofNat, dif_pos h]
  rfl

theorem char_toLower_toLower (c : Char) : c.toLower.toLower = c.toLower := by
  unfold Char.toLower
  by_cases h : c.toNat ≥ 65 ∧ c.toNat ≤ 90
  · rw [if_pos h]
    have hv : (c.toNat + 32).isValidChar := Or.inl (by omega)
    rw [char_toNat_ofNat_valid hv, if_neg (by omega)]
  · rw [if_neg h, if_neg h]

theorem standardKey_idem (s : String) : standardKey (standardKey s) = standardKey s := by
  unfold standardKey pyReplaceSpace pyLower
  simp only [List.map_map]
  congr 1
  apply List.map_congr_left
  intro c _
  simp only [Function.comp]
  by_cases hsp : c.toLower = ' '
  · have h1 : ('_' : Char).toLower = '_' := rfl
    simp [hsp, h1]
  · simp [hsp, char_toLower_toLower c]

/-- C9: `standardise_headers` is idempotent, even at the level of whole
tables: a second application changes nothing.  Each application renames every
column to its lower-cased, space-to-underscore form in place, keeping the
column order (the renaming is a positional map) and every cell and dtype
untouched. -/
theorem standardise_headers_idempotent (df : DF) :
    standardise_headers (standardise_headers df) = standardise_headers df
    ∧ (standardise_headers df).names = df.names.map standardKey
    ∧ (standardise_headers df).cols.map (·.cells) = df.cols.map (·.cells)
    ∧ (standardise_headers df).cols.map (·.dtype) = df.cols.map (·.dtype) := by
  refine ⟨?_, ?_, ?_, ?_⟩
  · unfold standardise_headers
    simp only [List.map_map]
    congr 1
    apply List.map_congr_left
    intro c _
    simp [Function.comp, standardKey_idem]
  · unfold standardise_headers DF.names
    simp [List.map_map, Function.comp]
  · unfold standardise_headers
    simp [List.map_map, Function.comp]
  · unfold standardise_headers
    simp [List.map_map, Function.comp]

/-- C6: `get_trends` raises `ValueError ("Unsupported metric: ...")` exactly
for metrics outside the six supported names; for a supported metric it
returns the mapping whose keys are exactly the numeric-dtype columns of the
working table, in order, and whose values are the chosen aggregate of each
column; on the table with `A = [1,2,3]`, `B = [4,5,6]` the mean trends are
`A = 2` and `B = 5`. -/
theorem get_trends_spec (df : DF) (metric : String) :
    ((metricNames.contains metric = false
        ∧ get_trends metric df
            = Except.error (Err.valueError ("Unsupported metric: " ++ metric)))
      ∨ (metricNames.contains metric = true
        ∧ get_trends metric df
            = Except.ok ((numericCols df).map (fun c => (c, metricFn metric (numCellsOf df c))))
        ∧ ((numericCols df).map (fun c => (c, metricFn metric (numCellsOf df c)))).map Prod.fst
            = numericCols df))
    ∧ get_trends "mean" exAB = Except.ok [("A", (2 : ℝ)), ("B", (5 : ℝ))] := by
  constructor
  · by_cases h : metricNames.contains metric = true
    · refine Or.inr ⟨h, by unfold get_trends; rw [if_pos h], ?_⟩
      have hfst : (Prod.fst ∘ fun c : String => (c, metricFn metric (numCellsOf df c)))
          = id := rfl
      rw [List.map_map, hfst, List.map_id]
    · exact Or.inl ⟨by simpa using h, by unfold get_trends; rw [if_neg h]⟩
  · have hA : numCellsOf exAB "A" = [1, 2, 3] := by decide
    have hB : numCellsOf exAB "B" = [4, 5, 6] := by decide
    have hcols : numericCols exAB = ["A", "B"] := by decide
    have hmA : qmean [1, 2, 3] = 2 := by
      norm_num [qmean, List.sum_cons, List.sum_nil]
    have hmB : qmean [4, 5, 6] = 5 := by
      norm_num [qmean, List.sum_cons, List.sum_nil]
    have hc : metricNames.contains "mean" = true := by decide
    unfold get_trends
    rw [if_pos hc, hcols]
    simp [metricFn, hA, hB, hmA, hmB]

/-- Does the row satisfy `row[column] == value`? -/
def rowMatches (column : String) (value : Val) (r : List (String × Val)) : Bool :=
  match List.lookup column r with
  | some cv => valEq cv value
  | none => false

/-- Table returned by a successful `filter_rows` call (the value of
`self.df[self.df[column] == value]`). -/
def filteredTable (column : String) (value : Val) (df : DF) : DF :=
  match df.findCol column with
  | some c => maskDF (c.cells.map (fun v => valEq v value)) df
  | none => df

theorem applyMask_nil_right (m : List Bool) : applyMask m ([] : List α) = [] := by
  simp [applyMask]

theorem applyMask_cons_tail_false (m : List Bool) (ys : List α) :
    applyMask (false :: m) ys = applyMask m ys.tail := by
  cases ys <;> simp [applyMask]

theorem applyMask_cons_tail_true (m : List Bool) (ys : List α) :
    (applyMask (true :: m) ys).tail = applyMask m ys.tail := by
  cases ys <;> simp [applyMask]

theorem applyMask_cons_head_true (m : List Bool) (ys : List α) :
    (applyMask (true :: m) ys)[0]? = ys[0]? := by
  cases ys <;> simp [applyMask]

theorem applyMask_length_le (mask : List Bool) (xs : List α) :
    (applyMask mask xs).length ≤ xs.length := by
  unfold applyMask
  calc ((List.zip mask xs).filterMap (fun p => if p.1 then some p.2 else none)).length
      ≤ (List.zip mask xs).length := List.length_filterMap_le _ _
    _ ≤ xs.length := by rw [List.length_zip]; omega

theorem find?_name_map (f : List Val → List Val) (cols : List Col) (column : String) :
    List.find? (fun c => c.name = column) (cols.map (fun c => { c with cells := f c.cells }))
      = (List.find? (fun c => c.name = column) cols).map
          (fun c => { c with cells := f c.cells }) := by
  induction cols with
  | nil => rfl
  | cons c rest ih =>
      by_cases h : c.name = column
      · simp [List.find?_cons, h]
      · simp [List.find?_cons, h, ih]

theorem findCol_maskDF (mask : List Bool) (df : DF) (column : String) :
    (maskDF mask df).findCol column
      = (df.findCol column).map (fun c => { c with cells := applyMask mask c.cells }) :=
  find?_name_map (applyMask mask) df.cols column

theorem findCol_dfTail (df : DF) (column : String) :
    (dfTail df).findCol column
      = (df.findCol column).map (fun c => { c with cells := c.cells.tail }) :=
  find?_name_map List.tail df.cols column

theorem uniform_dfTail (df : DF) (n : Nat) (h : df.uniform (n + 1)) :
    (dfTail df).uniform n := by
  intro c hc
  simp only [dfTail, List.mem_map] at hc
  obtain ⟨c0, hc0, rfl⟩ := hc
  have := h c0 hc0
  simp [List.length_tail, this]

theorem maskDF_cons_false (m : List Bool) (df : DF) :
    maskDF (false :: m) df = maskDF m (dfTail df) := by
  unfold maskDF dfTail
  simp only [List.map_map]
  congr 1
  apply List.map_congr_left
  intro c _
  simp [Function.comp, applyMask_cons_tail_false]

theorem dfTail_maskDF_cons_true (m : List Bool) (df : DF) :
    dfTail (maskDF (true :: m) df) = maskDF m (dfTail df) := by
  unfold maskDF dfTail
  simp only [List.map_map]
  congr 1
  apply List.map_congr_left
  intro c _
  simp [Function.comp, applyMask_cons_tail_true]

theorem rowAt_maskDF_cons_true (m : List Bool) (df : DF) :
    rowAt (maskDF (true :: m) df) 0 = rowAt df 0 := by
  unfold maskDF rowAt
  simp only [List.map_map]
  apply List.map_congr_left
  intro c _
  simp [Function.comp, applyMask_cons_head_true]

theorem lookup_rowAt (df : DF) (column : String) (i : Nat) :
    List.lookup column (rowAt df i)
      = (df.findCol column).map (fun c => c.cells.getD i Val.null) := by
  obtain ⟨cols⟩ := df
  induction cols with
  | nil => rfl
  | cons c rest ih =>
      by_cases h : c.name = column
      · simp [rowAt, DF.findCol, List.lookup, List.find?_cons, h]
      · simp only [rowAt, List.map_cons, List.lookup, DF.findCol, List.find?_cons] at ih ⊢
        rw [show (column == c.name) = false by simp [Ne.symm h],
            show (decide (c.name = column)) = false by simpa using h]
        simpa using ih

theorem applyMask_nil_left (ys : List α) : applyMask ([] : List Bool) ys = [] := rfl

theorem applyMask_cons_cons_true (m : List Bool) (y : α) (yt : List α) :
    applyMask (true :: m) (y :: yt) = y :: applyMask m yt := rfl

theorem rowCount_maskDF_le (mask : List Bool) (df : DF) :
    (maskDF mask df).rowCount ≤ df.rowCount := by
  obtain ⟨cols⟩ := df
  cases cols with
  | nil => simp [maskDF, DF.rowCount]
  | cons c rest => simpa [maskDF, DF.rowCount] using applyMask_length_le mask c.cells

theorem rowCount_maskDF_cons_true (m : List Bool) (df : DF) (n : Nat)
    (hu : df.uniform (n + 1)) (hne : df.cols ≠ []) :
    (maskDF (true :: m) df).rowCount = (maskDF m (dfTail df)).rowCount + 1 := by
  obtain ⟨cols⟩ := df
  cases cols with
  | nil => exact absurd rfl hne
  | cons c rest =>
      have hlen : c.cells.length = n + 1 := hu c (by simp)
      cases hcc : c.cells with
      | nil => rw [hcc] at hlen; simp at hlen
      | cons y yt =>
          simp [maskDF, dfTail, DF.rowCount, hcc, applyMask_cons_cons_true]

theorem rows_maskDF_filter (column : String) (v : Val) :
    ∀ (n : Nat) (df : DF) (c0 : Col), df.uniform n → df.findCol column = some c0 →
      DF.rows (maskDF (c0.cells.map (fun x => valEq x v)) df)
        = (rowsOf n df).filter (rowMatches column v) := by
  intro n
  induction n with
  | zero =>
      intro df c0 hu hf
      have hc0 : c0 ∈ df.cols := List.mem_of_find?_eq_some hf
      have hcells : c0.cells = [] := List.eq_nil_of_length_eq_zero (hu c0 hc0)
      rw [hcells]
      have hrc : (maskDF ([] : List Bool) df).rowCount = 0 := by
        obtain ⟨cols⟩ := df
        cases cols with
        | nil => rfl
        | cons c rest => simp [maskDF, DF.rowCount, applyMask_nil_left]
      simp only [List.map_nil]
      unfold DF.rows
      rw [hrc]
      simp [rowsOf]
  | succ n ih =>
      intro df c0 hu hf
      have hc0 : c0 ∈ df.cols := List.mem_of_find?_eq_some hf
      have hlen : c0.cells.length = n + 1 := hu c0 hc0
      cases hc : c0.cells with
      | nil => rw [hc] at hlen; simp at hlen
      | cons x xs =>
          have hfT : (dfTail df).findCol column = some { c0 with cells := xs } := by
            rw [findCol_dfTail, hf]
            simp [hc]
          have huT : (dfTail df).uniform n := uniform_dfTail df n hu
          have hp : rowMatches column v (rowAt df 0) = valEq x v := by
            unfold rowMatches
            rw [lookup_rowAt, hf]
            simp [hc]
          have hne : df.cols ≠ [] := by
            intro hnil
            rw [hnil] at hc0
            exact absurd hc0 (List.not_mem_nil c0)
          have h2 := ih (dfTail df) { c0 with cells := xs } huT hfT
          dsimp only at h2
          simp only [List.map_cons]
          rw [rowsOf_succ, List.filter_cons, hp]
          cases hb : valEq x v with
          | true =>
              have h1 : (maskDF (true :: xs.map (fun x => valEq x v)) df).rowCount
                  = (maskDF (xs.map (fun x => valEq x v)) (dfTail df)).rowCount + 1 :=
                rowCount_maskDF_cons_true _ df n hu hne
              unfold DF.rows
              rw [h1, rowsOf_succ, rowAt_maskDF_cons_true, dfTail_maskDF_cons_true]
              unfold DF.rows at h2
              rw [h2]
              simp
          | false =>
              rw [maskDF_cons_false]
              rw [h2]
              simp

theorem findCol_of_mem_names (df : DF) (column : String) (h : column ∈ df.names) :
    ∃ c, df.findCol column = some c := by
  simp only [DF.names, List.mem_map] at h
  obtain ⟨c, hc, hname⟩ := h
  have hs : (df.cols.find? (fun c => c.name = column)).isSome :=
    List.find?_isSome.mpr ⟨c, hc, by simp [hname]⟩
  exact Option.isSome_iff_exists.mp hs

/-- C7: `filter_rows(column, value)` raises `ValueError` exactly when the
column is absent; otherwise, without touching the working table, it returns
the table whose rows are precisely the rows of the working table whose cell
in `column` equals `value` (same order, nothing else), so every output row
satisfies the predicate and the output row count is at most the input row
count. -/
theorem filter_rows_spec (df : DF) (column : String) (value : Val) (w : df.wf) :
    (column ∉ df.names
      ∧ filter_rows column value df
          = Except.error (Err.valueError ("Column \x27" ++ column ++ "\x27 not found in the DataFrame")))
    ∨ (column ∈ df.names
      ∧ filter_rows column value df = Except.ok (filteredTable column value df)
      ∧ (filteredTable column value df).rows = df.rows.filter (rowMatches column value)
      ∧ (filteredTable column value df).rowCount ≤ df.rowCount) := by
  by_cases h : column ∈ df.names
  · obtain ⟨c, hfc⟩ := findCol_of_mem_names df column h
    refine Or.inr ⟨h, ?_, ?_, ?_⟩
    · simp [filter_rows, filteredTable, h, hfc]
    · unfold filteredTable
      rw [hfc]
      exact rows_maskDF_filter column value df.rowCount df c w hfc
    · unfold filteredTable
      rw [hfc]
      exact rowCount_maskDF_le _ df
  · refine Or.inl ⟨h, ?_⟩
    simp [filter_rows, h]

/-- Witness for C7 on the example table, filtering column `A` for the value
`2`. -/
theorem filter_rows_spec_witness :
    exAB.wf
    ∧ (("A" ∉ exAB.names
        ∧ filter_rows "A" (Val.num 2) exAB
            = Except.error (Err.valueError ("Column \x27" ++ "A" ++ "\x27 not found in the DataFrame")))
      ∨ ("A" ∈ exAB.names
        ∧ filter_rows "A" (Val.num 2) exAB = Except.ok (filteredTable "A" (Val.num 2) exAB)
        ∧ (filteredTable "A" (Val.num 2) exAB).rows
            = exAB.rows.filter (rowMatches "A" (Val.num 2))
        ∧ (filteredTable "A" (Val.num 2) exAB).rowCount ≤ exAB.rowCount)) :=
  ⟨by decide, filter_rows_spec exAB "A" (Val.num 2) (by decide)⟩

theorem names_map_mk (names : List String) (g : String → Dtype) (h : String → List Val) :
    (DF.mk (names.map (fun n => Col.mk n (g n) (h n)))).names = names := by
  unfold DF.names
  rw [List.map_map,
    show ((fun c : Col => c.name) ∘ fun n => Col.mk n (g n) (h n)) = id from rfl,
    List.map_id]

theorem names_concatDF (d1 d2 : DF) :
    (concatDF d1 d2).names = d1.names ++ d2.names.filter (fun n => !(d1.names.contains n)) :=
  names_map_mk _ _ _

theorem mem_names_concatDF (d1 d2 : DF) (n : String) :
    n ∈ (concatDF d1 d2).names ↔ (n ∈ d1.names ∨ n ∈ d2.names) := by
  rw [names_concatDF]
  simp only [List.mem_append, List.mem_filter, List.contains, List.elem_eq_mem,
    Bool.not_eq_eq_eq_not, Bool.not_true, decide_eq_false_iff_not]
  tauto

theorem find?_map_mk (names : List String) (g : String → Dtype) (h : String → List Val)
    (n : String) (hm : n ∈ names) :
    (names.map (fun m => Col.mk m (g m) (h m))).find? (fun c => c.name = n)
      = some (Col.mk n (g n) (h n)) := by
  induction names with
  | nil => cases hm
  | cons a rest ih =>
      by_cases ha : a = n
      · subst ha
        simp [List.find?_cons]
      · have hr : n ∈ rest := by
          cases hm with
          | head => exact absurd rfl ha
          | tail _ hmem => exact hmem
        simp [List.find?_cons, ha, ih hr]

theorem findCol_concatDF (d1 d2 : DF) (n : String)
    (hm : n ∈ d1.names ∨ n ∈ d2.names) :
    (concatDF d1 d2).findCol n
      = some (Col.mk n (mergeDtype (d1.dtypeOf n) (d2.dtypeOf n))
          (cellsFor d1 n ++ cellsFor d2 n)) := by
  unfold concatDF DF.findCol
  apply find?_map_mk
  have := (mem_names_concatDF d1 d2 n).mpr hm
  rw [names_concatDF] at this
  exact this

theorem length_cellsFor (d : DF) (w : d.wf) (n : String) :
    (cellsFor d n).length = d.rowCount := by
  unfold cellsFor
  cases hf : d.findCol n with
  | none => simp
  | some c => exact w c (List.mem_of_find?_eq_some hf)

theorem getDnull_append_left (l l2 : List Val) (i : Nat) (h : i < l.length) :
    (l ++ l2).getD i Val.null = l.getD i Val.null := by
  simp [List.getD_eq_getElem?_getD, List.getElem?_append_left h]

theorem getDnull_append_right (l l2 : List Val) (i : Nat) :
    (l ++ l2).getD (l.length + i) Val.null = l2.getD i Val.null := by
  rw [List.getD_eq_getElem?_getD, List.getD_eq_getElem?_getD,
    List.getElem?_append_right (Nat.le_add_right _ _)]
  congr 2
  omega

theorem rowCount_concatDF (d1 d2 : DF) (w1 : d1.wf) (w2 : d2.wf) :
    (concatDF d1 d2).rowCount = d1.rowCount + d2.rowCount := by
  have hlen1 : ∀ n, (cellsFor d1 n).length = d1.rowCount := length_cellsFor d1 w1
  have hlen2 : ∀ n, (cellsFor d2 n).length = d2.rowCount := length_cellsFor d2 w2
  unfold concatDF
  cases h1 : d1.cols with
  | nil =>
      have hn1 : d1.names = [] := by simp [DF.names, h1]
      have hrc1 : d1.rowCount = 0 := by simp [DF.rowCount, h1]
      rw [hn1, hrc1]
      cases h2 : d2.cols with
      | nil =>
          have hn2 : d2.names = [] := by simp [DF.names, h2]
          have hrc2 : d2.rowCount = 0 := by simp [DF.rowCount, h2]
          rw [hn2, hrc2]
          rfl
      | cons c2 rest2 =>
          have hn2 : d2.names = c2.name :: DF.names (DF.mk rest2) := by simp [DF.names, h2]
          rw [hn2]
          simp only [List.nil_append, List.filter_cons, List.contains, List.elem_nil,
            Bool.not_false, if_true]
          simp only [DF.rowCount, List.map_cons]
          have := hlen1 c2.name
          have := hlen2 c2.name
          simp only [List.length_append]
          rw [hlen1 c2.name, hlen2 c2.name]
          simp [DF.rowCount, h1]
  | cons c1 rest1 =>
      have hn1 : d1.names = c1.name :: DF.names (DF.mk rest1) := by simp [DF.names, h1]
      rw [hn1]
      simp only [List.cons_append, List.map_cons, DF.rowCount, List.length_append]
      rw [hlen1 c1.name, hlen2 c1.name]
      simp [DF.rowCount, h1]

theorem findCol_eq_none_of_not_mem (d : DF) (n : String) (h : n ∉ d.names) :
    d.findCol n = none := by
  cases hf : d.findCol n with
  | none => rfl
  | some c =>
      have hc : c ∈ d.cols := List.mem_of_find?_eq_some hf
      have hp := List.find?_some hf
      have hname : c.name = n := by simpa using hp
      refine absurd ?_ h
      rw [← hname]
      unfold DF.names
      exact List.mem_map_of_mem _ hc

theorem cellAt_concatDF_left (d1 d2 : DF) (w1 : d1.wf) (n : String) (i : Nat)
    (hn : n ∈ d1.names) (hi : i < d1.rowCount) :
    cellAt (concatDF d1 d2) n i = cellAt d1 n i := by
  obtain ⟨c, hfc⟩ := findCol_of_mem_names d1 n hn
  have hcells : cellsFor d1 n = c.cells := by unfold cellsFor; rw [hfc]
  have hlen : c.cells.length = d1.rowCount := w1 c (List.mem_of_find?_eq_some hfc)
  unfold cellAt
  rw [findCol_concatDF d1 d2 n (Or.inl hn), hfc]
  simp only [Option.map_some']
  congr 1
  rw [hcells, getDnull_append_left _ _ i (by omega)]

theorem cellAt_concatDF_left_absent (d1 d2 : DF) (n : String) (i : Nat)
    (hn1 : n ∉ d1.names) (hn2 : n ∈ d2.names) (hi : i < d1.rowCount) :
    cellAt (concatDF d1 d2) n i = some Val.null := by
  have hfc : d1.findCol n = none := findCol_eq_none_of_not_mem d1 n hn1
  have hcells : cellsFor d1 n = List.replicate d1.rowCount Val.null := by
    unfold cellsFor; rw [hfc]
  unfold cellAt
  rw [findCol_concatDF d1 d2 n (Or.inr hn2)]
  simp only [Option.map_some']
  congr 1
  rw [hcells, getDnull_append_left _ _ i (by simpa using hi)]
  simp [List.getD_eq_getElem?_getD, List.getElem?_replicate, hi]

theorem cellAt_concatDF_right (d1 d2 : DF) (w1 : d1.wf) (n : String) (i : Nat)
    (hn : n ∈ d2.names) :
    cellAt (concatDF d1 d2) n (d1.rowCount + i) = cellAt d2 n i := by
  obtain ⟨c, hfc⟩ := findCol_of_mem_names d2 n hn
  have hcells2 : cellsFor d2 n = c.cells := by unfold cellsFor; rw [hfc]
  unfold cellAt
  rw [findCol_concatDF d1 d2 n (Or.inr hn), hfc]
  simp only [Option.map_some']
  congr 1
  rw [← length_cellsFor d1 w1 n, getDnull_append_right, hcells2]

theorem cellAt_concatDF_right_absent (d1 d2 : DF) (w1 : d1.wf) (n : String) (i : Nat)
    (hn1 : n ∈ d1.names) (hn2 : n ∉ d2.names) (hi : i < d2.rowCount) :
    cellAt (concatDF d1 d2) n (d1.rowCount + i) = some Val.null := by
  have hfc : d2.findCol n = none := findCol_eq_none_of_not_mem d2 n hn2
  have hcells2 : cellsFor d2 n = List.replicate d2.rowCount Val.null := by
    unfold cellsFor; rw [hfc]
  unfold cellAt
  rw [findCol_concatDF d1 d2 n (Or.inl hn1)]
  simp only [Option.map_some']
  congr 1
  rw [← length_cellsFor d1 w1 n, getDnull_append_right, hcells2]
  simp [List.getD_eq_getElem?_getD, List.getElem?_replicate, hi]

/-- C8: on well-formed tables, `merge_dataframes` (and `merge_csv` on an
existing, recognised, successfully parsed file) builds a new table whose row
count is the sum of the two row counts and whose column set is the union of
the two column sets; the rows of the working table come first at their old
positions, the rows of the second table follow re-indexed after them, and a
cell of a column the contributing table lacks is the null marker.  Both
methods only read `self.df`; the working table is not touched. -/
theorem merge_spec (d1 d2 : DF) (path : String) (fs : FS)
    (w1 : d1.wf) (w2 : d2.wf)
    (hfs : List.lookup path fs = some d2) (hext : endswithTabular path = true) :
    (merge_dataframes d1 d2).rowCount = d1.rowCount + d2.rowCount
    ∧ (∀ n, n ∈ (merge_dataframes d1 d2).names ↔ (n ∈ d1.names ∨ n ∈ d2.names))
    ∧ (∀ n i, n ∈ d1.names → i < d1.rowCount →
        cellAt (merge_dataframes d1 d2) n i = cellAt d1 n i)
    ∧ (∀ n i, n ∉ d1.names → n ∈ d2.names → i < d1.rowCount →
        cellAt (merge_dataframes d1 d2) n i = some Val.null)
    ∧ (∀ n i, n ∈ d2.names → i < d2.rowCount →
        cellAt (merge_dataframes d1 d2) n (d1.rowCount + i) = cellAt d2 n i)
    ∧ (∀ n i, n ∈ d1.names → n ∉ d2.names → i < d2.rowCount →
        cellAt (merge_dataframes d1 d2) n (d1.rowCount + i) = some Val.null)
    ∧ merge_csv d1 path fs = Except.ok (merge_dataframes d1 d2) := by
  refine ⟨rowCount_concatDF d1 d2 w1 w2,
    fun n => mem_names_concatDF d1 d2 n,
    fun n i hn hi => cellAt_concatDF_left d1 d2 w1 n i hn hi,
    fun n i hn1 hn2 hi => cellAt_concatDF_left_absent d1 d2 n i hn1 hn2 hi,
    fun n i hn _ => cellAt_concatDF_right d1 d2 w1 n i hn,
    fun n i hn1 hn2 hi => cellAt_concatDF_right_absent d1 d2 w1 n i hn1 hn2 hi,
    ?_⟩
  simp [merge_csv, hfs, hext, merge_dataframes]

/-- Witness for C8: merging the example table (columns `A`, `B`, three rows)
with a one-row table of columns `B`, `C`, also through a file at
`"other.csv"`. -/
theorem merge_spec_witness :
    exAB.wf ∧ exBC.wf
    ∧ List.lookup "other.csv" [("other.csv", exBC)] = some exBC
    ∧ endswithTabular "other.csv" = true
    ∧ (merge_dataframes exAB exBC).rowCount = exAB.rowCount + exBC.rowCount
    ∧ ("C" ∈ (merge_dataframes exAB exBC).names ↔ ("C" ∈ exAB.names ∨ "C" ∈ exBC.names))
    ∧ cellAt (merge_dataframes exAB exBC) "A" 1 = cellAt exAB "A" 1
    ∧ cellAt (merge_dataframes exAB exBC) "C" 0 = some Val.null
    ∧ cellAt (merge_dataframes exAB exBC) "B" (exAB.rowCount + 0) = cellAt exBC "B" 0
    ∧ cellAt (merge_dataframes exAB exBC) "A" (exAB.rowCount + 0) = some Val.null
    ∧ merge_csv exAB "other.csv" [("other.csv", exBC)]
        = Except.ok (merge_dataframes exAB exBC) :=
  ⟨by decide, by decide, by decide, by decide,
   (merge_spec exAB exBC "other.csv" [("other.csv", exBC)]
      (by decide) (by decide) (by decide) (by decide)).1,
   (merge_spec exAB exBC "other.csv" [("other.csv", exBC)]
      (by decide) (by decide) (by decide) (by decide)).2.1 "C",
   (merge_spec exAB exBC "other.csv" [("other.csv", exBC)]
      (by decide) (by decide) (by decide) (by decide)).2.2.1 "A" 1 (by decide) (by decide),
   (merge_spec exAB exBC "other.csv" [("other.csv", exBC)]
      (by decide) (by decide) (by decide) (by decide)).2.2.2.1 "C" 0 (by decide) (by decide)
      (by decide),
   (merge_spec exAB exBC "other.csv" [("other.csv", exBC)]
      (by decide) (by decide) (by decide) (by decide)).2.2.2.2.1 "B" 0 (by decide) (by decide),
   (merge_spec exAB exBC "other.csv" [("other.csv", exBC)]
      (by decide) (by decide) (by decide) (by decide)).2.2.2.2.2.1 "A" 0 (by decide) (by decide)
      (by decide),
   (merge_spec exAB exBC "other.csv" [("other.csv", exBC)]
      (by decide) (by decide) (by decide) (by decide)).2.2.2.2.2.2⟩
